import Mathlib

/-!
# Rolling-upgrade orchestrator: shallow embedding and verification

A shallow embedding of the `ManagedApplication` rolling-upgrade operator
(the `Reconcile` phase switch, `runMigration` and `deployCanary` from the
repository's rolling-upgrade example), together with components of the
orchestrator that the repository only references — `promoteCanary`,
the health-gated canary controller, canary-sequence validation and the
rollback manager — modelled from the design specification where the
repository does not define them.

Phases are kept as raw strings (as in the Go source, where
`Status.Phase` is a `string` and the switch falls through on anything
unrecognised).  Weights are `Int` (Go `int32`; no arithmetic near the
32-bit boundary occurs), pauses are `Nat` seconds.
-/

namespace Upgrade

/-- Go `CanaryStep{Weight int32, Pause int}` (pause in seconds). -/
structure CanaryStep where
  weight : Int
  pause : Nat
deriving DecidableEq, Repr

/-- Go `CanarySpec{Steps []CanaryStep}` (the `enabled` flag is not consulted
by any embedded code path). -/
structure CanarySpec where
  steps : List CanaryStep
deriving DecidableEq, Repr

/-- Go `JobSpec{Image string, Command []string}` for the migration job. -/
structure JobSpec where
  image : String
  command : List String
deriving DecidableEq, Repr

/-- Go `UpgradeStrategy`: tagged by `type`, with optional payloads. -/
structure UpgradeStrategy where
  type : String
  migrationJob : Option JobSpec
  canary : Option CanarySpec
deriving DecidableEq, Repr

/-- Go `ManagedApplicationSpec{Version, Paused, UpgradeStrategy}`. -/
structure ManagedApplicationSpec where
  version : String
  paused : Bool
  upgradeStrategy : UpgradeStrategy
deriving DecidableEq, Repr

/-- Go `ManagedApplicationStatus{Phase, CurrentVersion, TargetVersion, CanaryWeight}`
(conditions are not consulted by any embedded code path). -/
structure ManagedApplicationStatus where
  phase : String
  currentVersion : String
  targetVersion : String
  canaryWeight : Int
deriving DecidableEq, Repr

/-- A `ManagedApplication` object: identity (name/namespace) plus spec and status. -/
structure ManagedApplication where
  name : String
  ns : String
  spec : ManagedApplicationSpec
  status : ManagedApplicationStatus
deriving DecidableEq, Repr

/-- The observable outcome of one reconciler invocation: the (possibly
status-updated) object, the externally visible side effects performed
(job creation, traffic-weight application, configuration-error condition),
the requested re-invocation delay in seconds (`0` = none, mirroring
`ctrl.Result{}`), whether a status write happened, and whether an error
was returned. -/
structure Outcome where
  app : ManagedApplication
  createdJob : Option String
  trafficWeightSet : Option Int
  requeueAfter : Nat
  statusWrite : Bool
  configError : Bool
  err : Bool
deriving DecidableEq, Repr

/-- Models `return ctrl.Result{}, nil` with no object mutation and no side effect. -/
def noopOutcome (app : ManagedApplication) : Outcome :=
  { app := app, createdJob := none, trafficWeightSet := none,
    requeueAfter := 0, statusWrite := false, configError := false, err := false }

/-- Replace the phase in an application's status. -/
def setPhase (app : ManagedApplication) (p : String) : ManagedApplication :=
  { app with status := { app.status with phase := p } }

/-! ## Migration (from `runMigration` in the source) -/

/-- Go `batchv1.Job.Status` counters consulted by `runMigration`. -/
structure JobStatus where
  succeeded : Nat
  failed : Nat
deriving DecidableEq, Repr

/-- The cluster-side job store: a list of (name, namespace, status) records,
standing in for what `r.Get` / `r.Create` observe and mutate. -/
abbrev Cluster := List (String × String × JobStatus)

/-- Models `r.Get` on a Job: `none` stands for `errors.IsNotFound`. -/
def lookupJob (c : Cluster) (name ns : String) : Option JobStatus :=
  (c.find? (fun j => j.1 == name && j.2.1 == ns)).map (fun j => j.2.2)

/-- Models `r.Create` on a Job (created with zero completion counters). -/
def addJob (c : Cluster) (name ns : String) : Cluster :=
  (name, ns, ⟨0, 0⟩) :: c

/-- The deterministic one-shot task name from `runMigration`:
`fmt.Sprintf("%s-migration-%s", app.Name, app.Spec.Version)`. -/
def migrationJobName (app : ManagedApplication) : String :=
  app.name ++ "-migration-" ++ app.spec.version

/-- From the source: `runMigration` looks up the migration job by its
deterministic name; if absent, create it and requeue after 10s; if its
`Succeeded` counter is positive, set phase `Deploying`; else if its
`Failed` counter is positive, set phase `Failed`; otherwise requeue
after 10s with no change. -/
def runMigration (c : Cluster) (app : ManagedApplication) : Outcome :=
  match lookupJob c (migrationJobName app) app.ns with
  | none =>
      { app := app, createdJob := some (migrationJobName app), trafficWeightSet := none,
        requeueAfter := 10, statusWrite := false, configError := false, err := false }
  | some st =>
      if st.succeeded > 0 then
        { app := setPhase app "Deploying", createdJob := none, trafficWeightSet := none,
          requeueAfter := 0, statusWrite := true, configError := false, err := false }
      else if st.failed > 0 then
        { app := setPhase app "Failed", createdJob := none, trafficWeightSet := none,
          requeueAfter := 0, statusWrite := true, configError := false, err := false }
      else
        { app := app, createdJob := none, trafficWeightSet := none,
          requeueAfter := 10, statusWrite := false, configError := false, err := false }

/-! ## The reconcile entry point (from `Reconcile` in the source)

The source's switch dispatches `""`, `"Migrating"`, `"Deploying"`,
`"HealthChecking"` and `"Failed"` to handlers; only `runMigration` (and the
fragment `deployCanary`, which the switch never reaches) are defined in the
repository.  The four missing handlers are abstracted as parameters so that
every theorem about `reconcile` holds for any implementation of them. -/

/-- The phase handlers referenced by the source's `Reconcile` switch whose
bodies are absent from the repository (`startUpgrade`, `deployNewVersion`,
`performHealthCheck`, `rollback`). -/
structure Handlers where
  startUpgrade : ManagedApplication → Outcome
  deployNewVersion : ManagedApplication → Outcome
  performHealthCheck : ManagedApplication → Outcome
  rollbackFailed : ManagedApplication → Outcome

/-- From the source: `Reconcile` returns immediately when `Spec.Paused`, or
when `Status.CurrentVersion == Spec.Version`; otherwise switch on
`Status.Phase`, with an unhandled phase falling through to
`return ctrl.Result{}, nil`. -/
def reconcile (h : Handlers) (c : Cluster) (app : ManagedApplication) : Outcome :=
  if app.spec.paused then noopOutcome app
  else if app.status.currentVersion == app.spec.version then noopOutcome app
  else if app.status.phase == "" then h.startUpgrade app
  else if app.status.phase == "Migrating" then runMigration c app
  else if app.status.phase == "Deploying" then h.deployNewVersion app
  else if app.status.phase == "HealthChecking" then h.performHealthCheck app
  else if app.status.phase == "Failed" then h.rollbackFailed app
  else noopOutcome app

/-! ## Canary (from `deployCanary` in the source; surrounding controller
modelled from the spec where the repository leaves it undefined) -/

/-- Modelled from the spec: `promoteCanary` is referenced by `deployCanary`
but absent from the repository.  Per the transition rules, completion of the
canary sequence moves the machine to `Promoting`; the source's comment says
"Canary complete, promote to 100%", so the full cutover weight is applied. -/
def promoteCanary (app : ManagedApplication) : Outcome :=
  { app := setPhase app "Promoting", createdJob := none, trafficWeightSet := some 100,
    requeueAfter := 0, statusWrite := true, configError := false, err := false }

/-- From the source: `deployCanary`, with the current step index as a
parameter (the source computes it via `getCurrentCanaryStep`, which is
absent from the repository): if the index is past the last step, promote;
otherwise apply the step's weight to the traffic split, persist
`Status.CanaryWeight`, and requeue after the step's pause. -/
def deployCanary (app : ManagedApplication) (currentStep : Nat) : Outcome :=
  match app.spec.upgradeStrategy.canary with
  | none => noopOutcome app
  | some c =>
      if h : currentStep < c.steps.length then
        let step := c.steps.get ⟨currentStep, h⟩
        { app := { app with status := { app.status with canaryWeight := step.weight } },
          createdJob := none, trafficWeightSet := some step.weight,
          requeueAfter := step.pause, statusWrite := true, configError := false, err := false }
      else promoteCanary app

/-- Health-gate verdict for the current canary step (spec §4.3). -/
inductive Gate where
  | passing
  | failing
  | pending
deriving DecidableEq, Repr

/-- Modelled from the spec: one canary-controller invocation (`advance`),
absent from the repository, which only defines the weight-application
fragment `deployCanary`.  Per spec §4.4: apply the current step's weight if
not already applied (reusing `deployCanary`), then consult the Health Gate;
on `failing` return failed immediately (phase `Failed`, remaining steps
aborted); on `passing` advance past the step, entering `Promoting` after the
final step; on `pending` reschedule with no advance.  Returns the outcome
and the next step index. -/
def canaryAdvance (gate : Gate) (app : ManagedApplication) (idx : Nat) :
    Outcome × Nat :=
  match app.spec.upgradeStrategy.canary with
  | none => (noopOutcome app, idx)
  | some c =>
      if h : idx < c.steps.length then
        let step := c.steps.get ⟨idx, h⟩
        let applied : Outcome :=
          if app.status.canaryWeight == step.weight then
            { noopOutcome app with requeueAfter := step.pause }
          else deployCanary app idx
        match gate with
        | .pending => (applied, idx)
        | .failing =>
            ({ applied with
               app := setPhase applied.app "Failed",
               requeueAfter := 0,
               statusWrite := true }, idx)
        | .passing =>
            if idx + 1 == c.steps.length then
              ({ applied with
                 app := setPhase applied.app "Promoting",
                 statusWrite := true }, idx + 1)
            else (applied, idx + 1)
      else (promoteCanary app, idx)

/-- Modelled from the spec: the `Promoting → Healthy` transition, absent from
the repository — set `currentVersion := targetVersion`, reset
`canaryWeight := 0`, clear rollout artifacts. -/
def promotingStep (app : ManagedApplication) : Outcome :=
  { app := { app with status :=
      { app.status with
        phase := "Healthy",
        currentVersion := app.spec.version,
        canaryWeight := 0 } },
    createdJob := none, trafficWeightSet := none,
    requeueAfter := 0, statusWrite := true, configError := false, err := false }

/-- Modelled from the spec: repeated invocation of the canary machine, one
gate verdict per invocation; invocations outside the `Canary` and
`Promoting` phases do nothing (the canary controller owns no other phase).
Returns the outcome of each invocation in order. -/
def canaryLoop : List Gate → ManagedApplication × Nat → List Outcome
  | [], _ => []
  | g :: gs, (app, idx) =>
      if app.status.phase == "Canary" then
        let oi := canaryAdvance g app idx
        oi.1 :: canaryLoop gs (oi.1.app, oi.2)
      else if app.status.phase == "Promoting" then
        let o := promotingStep app
        o :: canaryLoop gs (o.app, idx)
      else noopOutcome app :: canaryLoop gs (app, idx)

/-- Adjacent non-decrease of the weights of a step sequence. -/
def weightsNondecreasing : List CanaryStep → Bool
  | [] => true
  | [_] => true
  | a :: b :: t => decide (a.weight ≤ b.weight) && weightsNondecreasing (b :: t)

/-- Modelled from the spec: canary step sequences must have non-decreasing
weights and a final weight of exactly 100 (spec §3 invariant); the check the
repository never implements. -/
def wellFormedSteps (steps : List CanaryStep) : Bool :=
  weightsNondecreasing steps &&
    ((steps.getLast?.map (fun s => s.weight)) == some 100)

/-- Modelled from the spec: an empty canary spec is equivalent to a single
implicit step of weight 100 with pause 0 (spec §4.4 edge case). -/
def effectiveSteps (c : CanarySpec) : List CanaryStep :=
  if c.steps.isEmpty then [⟨100, 0⟩] else c.steps

/-- Replace an application's canary step list. -/
def withCanarySteps (app : ManagedApplication) (steps : List CanaryStep) :
    ManagedApplication :=
  { app with spec := { app.spec with upgradeStrategy :=
      { app.spec.upgradeStrategy with canary := some ⟨steps⟩ } } }

/-- Modelled from the spec: a malformed canary sequence is surfaced as a
permanent configuration-error condition; the machine stays in its current
phase with no forward progress (spec §7). -/
def configErrorOutcome (app : ManagedApplication) : Outcome :=
  { noopOutcome app with configError := true }

/-- Modelled from the spec: a full canary run.  The controller normalises an
empty step list to the single implicit `{weight 100, pause 0}` step,
validates the sequence before the first step executes, and on a malformed
sequence reports a configuration error without executing any step; on a
well-formed sequence it iterates `canaryAdvance` with one Health-Gate
verdict per invocation. -/
def canaryRun (gates : List Gate) (app : ManagedApplication) : List Outcome :=
  match app.spec.upgradeStrategy.canary with
  | none => []
  | some c =>
      let steps := effectiveSteps c
      if wellFormedSteps steps then
        canaryLoop gates (withCanarySteps app steps, 0)
      else [configErrorOutcome app]

/-! ## Rollback (modelled from the spec; `rollback` is referenced by the
source's `Reconcile` switch but absent from the repository) -/

/-- The observable outcome of one rollback-manager call. -/
structure RollbackOutcome where
  app : ManagedApplication
  restoredVersion : Option String
  artifactsDeleted : Bool
  ok : Bool
deriving DecidableEq, Repr

/-- Modelled from the spec: `rollback(app)` (spec §4.5) restores the
workload to `status.currentVersion`, deletes migration/canary artifacts of
the failed attempt, resets `canaryWeight` to 0, and never changes
`currentVersion`; if the restore call fails it returns an error having
changed nothing. -/
def rollbackManager (restoreOk : Bool) (app : ManagedApplication) :
    RollbackOutcome :=
  if restoreOk then
    { app := { app with status := { app.status with canaryWeight := 0 } },
      restoredVersion := some app.status.currentVersion,
      artifactsDeleted := true, ok := true }
  else
    { app := app, restoredVersion := none, artifactsDeleted := false, ok := false }

/-- The Failed/RollingBack fragment of the machine, with the "rollback
already attempted" marker the spec keeps as a condition on the resource. -/
structure FailedState where
  app : ManagedApplication
  rollbackDone : Bool
deriving DecidableEq, Repr

/-- Modelled from the spec: the `Failed`/`RollingBack` transitions (spec
§4.1), absent from the repository.  From `Failed`: enter `RollingBack` only
when rollback is enabled by configuration and not already done, otherwise do
nothing.  From `RollingBack`: invoke the rollback manager; on success return
to `Failed` (terminal, rollback done); on failure stay in `RollingBack` for
a retried attempt.  Returns the new state and the rollback call made, if
any. -/
def failedPhaseStep (rollbackEnabled restoreOk : Bool) (s : FailedState) :
    FailedState × Option RollbackOutcome :=
  if s.app.status.phase == "Failed" then
    if rollbackEnabled && !s.rollbackDone then
      ({ s with app := setPhase s.app "RollingBack" }, none)
    else (s, none)
  else if s.app.status.phase == "RollingBack" then
    let rb := rollbackManager restoreOk s.app
    if rb.ok then ({ app := setPhase rb.app "Failed", rollbackDone := true }, some rb)
    else (s, some rb)
  else (s, none)

/-! ## Concrete fixtures (used by witnesses and counterexamples) -/

/-- The canary strategy of spec Scenario C: steps
`[{weight 10, pause 60}, {weight 50, pause 60}, {weight 100, pause 0}]`. -/
def stratScenC : UpgradeStrategy :=
  { type := "Canary",
    migrationJob := some ⟨"my-app-migrations:v2", ["/bin/migrate", "up"]⟩,
    canary := some ⟨[⟨10, 60⟩, ⟨50, 60⟩, ⟨100, 0⟩]⟩ }

/-- An application mid-upgrade (v1 → v2) in the `Canary` phase. -/
def appScenC : ManagedApplication :=
  { name := "my-app", ns := "default",
    spec := { version := "v2", paused := false, upgradeStrategy := stratScenC },
    status := { phase := "Canary", currentVersion := "v1",
                targetVersion := "v2", canaryWeight := 0 } }

/-- The same application in the `Migrating` phase. -/
def appMigrating : ManagedApplication :=
  { appScenC with status := { appScenC.status with phase := "Migrating" } }

/-- A cluster whose migration job for `appMigrating` reports both a
succeeded pod and a failed pod. -/
def clusterBoth : Cluster := [("my-app-migration-v2", "default", ⟨1, 1⟩)]

/-- The canary application after its first step (weight 10) was applied. -/
def appMidCanary : ManagedApplication :=
  { appScenC with status := { appScenC.status with canaryWeight := 10 } }

/-- A malformed canary sequence: single step of weight 50 (final ≠ 100). -/
def appBadSteps : ManagedApplication := withCanarySteps appScenC [⟨50, 0⟩]

/-- An empty canary sequence. -/
def appEmptySteps : ManagedApplication := withCanarySteps appScenC []

/-- The single explicit full-cutover step `{weight 100, pause 0}`. -/
def appOneStep : ManagedApplication := withCanarySteps appScenC [⟨100, 0⟩]

/-- The canary application with `paused := true`. -/
def appPausedC : ManagedApplication :=
  { appScenC with spec := { appScenC.spec with paused := true } }

/-- A failed application (weight left at 50) with no rollback attempted. -/
def sFailed : FailedState :=
  ⟨{ appScenC with status := { appScenC.status with phase := "Failed", canaryWeight := 50 } }, false⟩

/-- A rolling-back application (weight still 50). -/
def sRolling : FailedState :=
  ⟨{ appScenC with status := { appScenC.status with phase := "RollingBack", canaryWeight := 50 } }, false⟩

/-- Do-nothing stand-ins for the four handlers absent from the repository. -/
def idHandlers : Handlers := ⟨noopOutcome, noopOutcome, noopOutcome, noopOutcome⟩

/-! ## Helper lemmas -/

/-- Weight order on canary steps. -/
def stepLE (a b : CanaryStep) : Prop := a.weight ≤ b.weight

instance : IsTrans CanaryStep stepLE := ⟨fun _ _ _ h1 h2 => le_trans h1 h2⟩

instance : DecidableRel stepLE := fun a b => inferInstanceAs (Decidable (a.weight ≤ b.weight))

/-- The executable adjacent check agrees with `List.Chain'` of the weight order. -/
theorem weightsNondecreasing_iff_chain :
    ∀ l : List CanaryStep, weightsNondecreasing l = true ↔ List.Chain' stepLE l
  | [] => by simp [weightsNondecreasing, List.chain'_nil]
  | [a] => by simp [weightsNondecreasing, List.chain'_singleton]
  | a :: b :: t => by
      rw [weightsNondecreasing, List.chain'_cons, Bool.and_eq_true, decide_eq_true_eq,
        weightsNondecreasing_iff_chain (b :: t)]
      exact Iff.rfl

/-- The executable adjacent check agrees with the spec's pairwise
formulation `∀ i < j, weight i ≤ weight j`. -/
theorem weightsNondecreasing_iff_pairwise (l : List CanaryStep) :
    weightsNondecreasing l = true ↔
      ∀ (i j : Fin l.length), i < j → (l.get i).weight ≤ (l.get j).weight := by
  rw [weightsNondecreasing_iff_chain, List.chain'_iff_pairwise, List.pairwise_iff_get]
  exact Iff.rfl

/-- Characterisation of the well-formedness check. -/
theorem wellFormedSteps_iff (l : List CanaryStep) :
    wellFormedSteps l = true ↔
      ((∀ (i j : Fin l.length), i < j → (l.get i).weight ≤ (l.get j).weight) ∧
        l.getLast?.map (fun s => s.weight) = some 100) := by
  rw [wellFormedSteps, Bool.and_eq_true, weightsNondecreasing_iff_pairwise, beq_iff_eq]

/-- Once the phase is `Failed`, further canary-machine invocations apply no
traffic weight and leave the application untouched. -/
theorem canaryLoop_failed_frozen (gates : List Gate) (st : ManagedApplication)
    (i : Nat) (hst : st.status.phase = "Failed") :
    ∀ o ∈ canaryLoop gates (st, i), o.trafficWeightSet = none ∧ o.app = st := by
  induction gates with
  | nil => intro o ho; simp [canaryLoop] at ho
  | cons g gs ih =>
      intro o ho
      simp only [canaryLoop, hst] at ho
      simp only [show (("Failed" == "Canary") = false) from rfl,
        show (("Failed" == "Promoting") = false) from rfl,
        Bool.false_eq_true, if_false, List.mem_cons] at ho
      rcases ho with ho | ho
      · subst ho; exact ⟨rfl, rfl⟩
      · exact ih o ho

/-- Re-normalising the canary step list is a no-op. -/
theorem withCanarySteps_idem (app : ManagedApplication) (s : List CanaryStep) :
    withCanarySteps (withCanarySteps app s) s = withCanarySteps app s := rfl

/-! ## Claims -/

/-- Claim C1, counterexample: a migration job whose counters report both a
success and a failure (`Succeeded = 1`, `Failed = 1`, possible when a failed
pod is retried and later succeeds).  The claim demands phase `Failed`
whenever failure-count > 0, but `runMigration` checks the success counter
first and sets phase `Deploying`. -/
theorem claim_C1_counterexample :
    lookupJob clusterBoth (migrationJobName appMigrating) appMigrating.ns =
      some { succeeded := 1, failed := 1 } ∧
    0 < (1 : Nat) ∧
    (runMigration clusterBoth appMigrating).app.status.phase = "Deploying" ∧
    (runMigration clusterBoth appMigrating).app.status.phase ≠ "Failed" := by
  refine ⟨by decide, Nat.one_pos, by decide, by decide⟩

/-- Claim C1 (amended): in phase `Migrating` with the migration job found,
success-count > 0 sets the phase to `Deploying` (not `HealthChecking`);
failure-count > 0 **with success-count = 0** sets the phase to `Failed`;
with both counters zero the application is left unchanged and re-invocation
is requested after the fixed 10-second interval. -/
theorem claim_C1_migrating_transitions (c : Cluster) (app : ManagedApplication)
    (st : JobStatus)
    (hfound : lookupJob c (migrationJobName app) app.ns = some st) :
    (0 < st.succeeded →
      (runMigration c app).app = setPhase app "Deploying" ∧
      (runMigration c app).statusWrite = true ∧
      (runMigration c app).err = false) ∧
    (st.succeeded = 0 → 0 < st.failed →
      (runMigration c app).app = setPhase app "Failed" ∧
      (runMigration c app).statusWrite = true ∧
      (runMigration c app).err = false) ∧
    (st.succeeded = 0 → st.failed = 0 →
      (runMigration c app).app = app ∧
      (runMigration c app).requeueAfter = 10 ∧
      (runMigration c app).createdJob = none ∧
      (runMigration c app).statusWrite = false) := by
  simp only [runMigration, hfound]
  refine ⟨fun hs => ?_, fun hs hf => ?_, fun hs hf => ?_⟩
  · rw [if_pos hs]
    exact ⟨rfl, rfl, rfl⟩
  · rw [if_neg (by omega), if_pos hf]
    exact ⟨rfl, rfl, rfl⟩
  · rw [if_neg (by omega), if_neg (by omega)]
    exact ⟨rfl, rfl, rfl, rfl⟩

/-- Claim C1 witness: the amended theorem applied to the concrete cluster
whose migration job has `Succeeded = 1`, `Failed = 1`. -/
theorem claim_C1_migrating_transitions_witness :
    lookupJob clusterBoth (migrationJobName appMigrating) appMigrating.ns =
      some { succeeded := 1, failed := 1 } ∧
    (0 < (1 : Nat) →
      (runMigration clusterBoth appMigrating).app = setPhase appMigrating "Deploying" ∧
      (runMigration clusterBoth appMigrating).statusWrite = true ∧
      (runMigration clusterBoth appMigrating).err = false) :=
  ⟨by decide,
   fun hs =>
     (claim_C1_migrating_transitions clusterBoth appMigrating
       { succeeded := 1, failed := 1 } (by decide)).1 hs⟩

/-- Claim C5: a paused application, or one whose current version already
equals the target, gets a no-op reconcile invocation: the object is
unchanged, no job is created, no traffic weight is applied, no status
write happens, and no re-invocation is requested — for any implementation
of the handlers absent from the repository. -/
theorem claim_C5_paused_or_current_noop (h : Handlers) (c : Cluster)
    (app : ManagedApplication)
    (hp : app.spec.paused = true ∨ app.status.currentVersion = app.spec.version) :
    reconcile h c app = noopOutcome app ∧
    (noopOutcome app).app = app ∧
    (noopOutcome app).requeueAfter = 0 ∧
    (noopOutcome app).createdJob = none ∧
    (noopOutcome app).trafficWeightSet = none ∧
    (noopOutcome app).statusWrite = false := by
  refine ⟨?_, rfl, rfl, rfl, rfl, rfl⟩
  rcases hp with hp | hp
  · simp [reconcile, hp]
  · cases hpb : app.spec.paused
    · simp [reconcile, hpb, hp]
    · simp [reconcile, hpb]

/-- Claim C5 witness: the paused Scenario-C application. -/
theorem claim_C5_paused_or_current_noop_witness :
    (appPausedC.spec.paused = true ∨
      appPausedC.status.currentVersion = appPausedC.spec.version) ∧
    reconcile idHandlers [] appPausedC = noopOutcome appPausedC :=
  ⟨Or.inl (by decide),
   (claim_C5_paused_or_current_noop idHandlers [] appPausedC (Or.inl (by decide))).1⟩

/-- Claim C8: the migration task name is the deterministic function
`name ++ "-migration-" ++ version` of the application identity and target
version; an invocation finding no task creates exactly one, with no error;
the immediately following invocation (the only external change being the
machine's own creation) creates nothing and is not an error; and more
generally any invocation that finds the task existing creates nothing and
returns no error. -/
theorem claim_C8_idempotent_create (app : ManagedApplication) (c c₂ : Cluster)
    (st : JobStatus)
    (hnone : lookupJob c (migrationJobName app) app.ns = none)
    (hexists : lookupJob c₂ (migrationJobName app) app.ns = some st) :
    migrationJobName app = app.name ++ "-migration-" ++ app.spec.version ∧
    (runMigration c app).createdJob = some (migrationJobName app) ∧
    (runMigration c app).err = false ∧
    (runMigration c app).requeueAfter = 10 ∧
    (runMigration c app).app = app ∧
    (runMigration (addJob c (migrationJobName app) app.ns) app).createdJob = none ∧
    (runMigration (addJob c (migrationJobName app) app.ns) app).err = false ∧
    (runMigration c₂ app).createdJob = none ∧
    (runMigration c₂ app).err = false := by
  have hlook : lookupJob (addJob c (migrationJobName app) app.ns)
      (migrationJobName app) app.ns = some ⟨0, 0⟩ := by
    simp [lookupJob, addJob, List.find?]
  have hsecond : (runMigration (addJob c (migrationJobName app) app.ns) app).createdJob = none ∧
      (runMigration (addJob c (migrationJobName app) app.ns) app).err = false := by
    simp [runMigration, hlook]
  have hgen : (runMigration c₂ app).createdJob = none ∧ (runMigration c₂ app).err = false := by
    simp only [runMigration, hexists]
    split_ifs <;> simp
  have hfirst : (runMigration c app).createdJob = some (migrationJobName app) ∧
      (runMigration c app).err = false ∧
      (runMigration c app).requeueAfter = 10 ∧
      (runMigration c app).app = app := by
    simp [runMigration, hnone]
  exact ⟨rfl, hfirst.1, hfirst.2.1, hfirst.2.2.1, hfirst.2.2.2,
    hsecond.1, hsecond.2, hgen.1, hgen.2⟩

/-- Claim C8 witness: the Migrating application against the empty cluster
(first invocation) and against the cluster already holding its job. -/
theorem claim_C8_idempotent_create_witness :
    lookupJob [] (migrationJobName appMigrating) appMigrating.ns = none ∧
    lookupJob clusterBoth (migrationJobName appMigrating) appMigrating.ns =
      some { succeeded := 1, failed := 1 } ∧
    (runMigration [] appMigrating).createdJob = some (migrationJobName appMigrating) ∧
    (runMigration (addJob [] (migrationJobName appMigrating) appMigrating.ns)
      appMigrating).createdJob = none ∧
    (runMigration clusterBoth appMigrating).createdJob = none := by
  have h := claim_C8_idempotent_create appMigrating [] clusterBoth
    { succeeded := 1, failed := 1 } (by decide) (by decide)
  exact ⟨by decide, by decide, h.2.1, h.2.2.2.2.2.1, h.2.2.2.2.2.2.2.1⟩

/-- Claim C10: an application whose persisted phase is outside the switch's
five handled values (for example `Canary`, `Promoting`, `RollingBack` or any
unknown string) falls through the phase switch: the invocation performs no
status write, no side effect, and requests no future re-invocation, for any
implementation of the handlers absent from the repository — the machine
silently stalls in that phase. -/
theorem claim_C10_unknown_phase_stalls (h : Handlers) (c : Cluster)
    (app : ManagedApplication)
    (hph : app.status.phase ∉
      (["", "Migrating", "Deploying", "HealthChecking", "Failed"] : List String)) :
    reconcile h c app = noopOutcome app ∧
    (noopOutcome app).app = app ∧
    (noopOutcome app).requeueAfter = 0 ∧
    (noopOutcome app).createdJob = none ∧
    (noopOutcome app).trafficWeightSet = none ∧
    (noopOutcome app).statusWrite = false := by
  refine ⟨?_, rfl, rfl, rfl, rfl, rfl⟩
  simp only [List.mem_cons, List.not_mem_nil, or_false, not_or] at hph
  obtain ⟨h1, h2, h3, h4, h5⟩ := hph
  cases hpb : app.spec.paused
  · cases hv : (app.status.currentVersion == app.spec.version)
    · simp [reconcile, hpb, hv, beq_eq_false_iff_ne.mpr h1, beq_eq_false_iff_ne.mpr h2,
        beq_eq_false_iff_ne.mpr h3, beq_eq_false_iff_ne.mpr h4, beq_eq_false_iff_ne.mpr h5]
    · simp [reconcile, hpb, hv]
  · simp [reconcile, hpb]

/-- Claim C10 witness: the Scenario-C application, whose persisted phase
`Canary` is not handled by the source's switch. -/
theorem claim_C10_unknown_phase_stalls_witness :
    appScenC.status.phase ∉
      (["", "Migrating", "Deploying", "HealthChecking", "Failed"] : List String) ∧
    reconcile idHandlers [] appScenC = noopOutcome appScenC :=
  ⟨by decide, (claim_C10_unknown_phase_stalls idHandlers [] appScenC (by decide)).1⟩

/-- Claim C2: in the canary phase, a step whose health gate reports
`failing` drives the phase to `Failed` on that same invocation, with no step
advance; `status.canaryWeight` is left at that step's weight (not reset);
once `Failed`, further canary-machine invocations apply no weight and change
nothing (remaining steps aborted); and a completed rollback resets
`canaryWeight` to 0. -/
theorem claim_C2_gate_failure_fails (app : ManagedApplication) (c : CanarySpec)
    (idx : Nat) (gates : List Gate) (st : ManagedApplication) (i : Nat)
    (o : Outcome) (a : ManagedApplication)
    (happ : app.spec.upgradeStrategy.canary = some c)
    (hidx : idx < c.steps.length)
    (hst : st.status.phase = "Failed")
    (ho : o ∈ canaryLoop gates (st, i)) :
    (canaryAdvance .failing app idx).1.app.status.phase = "Failed" ∧
    (canaryAdvance .failing app idx).1.app.status.canaryWeight =
      (c.steps.get ⟨idx, hidx⟩).weight ∧
    (canaryAdvance .failing app idx).2 = idx ∧
    (o.trafficWeightSet = none ∧ o.app = st) ∧
    (rollbackManager true a).app.status.canaryWeight = 0 := by
  refine ⟨?_, ?_, ?_, canaryLoop_failed_frozen gates st i hst o ho, by simp [rollbackManager]⟩
  all_goals
    simp only [canaryAdvance, happ]
    rw [dif_pos hidx]
  all_goals
    by_cases hw : app.status.canaryWeight = (c.steps.get ⟨idx, hidx⟩).weight
  all_goals
    simp only [List.get_eq_getElem, Fin.val_mk] at hw
  all_goals
    simp [hw, deployCanary, happ, hidx, setPhase, noopOutcome]

/-- Claim C2 witness: Scenario D — the weight-50 step (index 1) of the
Scenario-C sequence fails its health gate: phase `Failed`, weight left at
50, and rollback resets it to 0. -/
theorem claim_C2_gate_failure_fails_witness :
    appMidCanary.spec.upgradeStrategy.canary = some ⟨[⟨10, 60⟩, ⟨50, 60⟩, ⟨100, 0⟩]⟩ ∧
    sFailed.app.status.phase = "Failed" ∧
    (canaryAdvance .failing appMidCanary 1).1.app.status.phase = "Failed" ∧
    (canaryAdvance .failing appMidCanary 1).1.app.status.canaryWeight = 50 ∧
    (rollbackManager true sFailed.app).app.status.canaryWeight = 0 := by
  have h := claim_C2_gate_failure_fails appMidCanary ⟨[⟨10, 60⟩, ⟨50, 60⟩, ⟨100, 0⟩]⟩ 1
    [.passing] sFailed.app 1 (noopOutcome sFailed.app) sFailed.app
    rfl (by decide) rfl (by decide)
  exact ⟨rfl, rfl, h.1, h.2.1, h.2.2.2.2⟩

/-- Claim C3: a non-empty canary step sequence whose weights are not
non-decreasing (in the pairwise sense `∀ i < j, S[i].weight ≤ S[j].weight`)
or whose final step's weight is not 100 is rejected as a configuration
error before the first step executes: whatever the gate verdicts, the run
consists of the single configuration-error report — no weight is ever
applied, no job is created, the application is unchanged, and no partial
execution occurs. -/
theorem claim_C3_malformed_rejected (app : ManagedApplication) (c : CanarySpec)
    (gates : List Gate)
    (happ : app.spec.upgradeStrategy.canary = some c)
    (hne : c.steps ≠ [])
    (hbad : (¬ ∀ (i j : Fin c.steps.length), i < j →
        (c.steps.get i).weight ≤ (c.steps.get j).weight) ∨
      c.steps.getLast?.map (fun s => s.weight) ≠ some 100) :
    canaryRun gates app = [configErrorOutcome app] ∧
    (configErrorOutcome app).trafficWeightSet = none ∧
    (configErrorOutcome app).createdJob = none ∧
    (configErrorOutcome app).app = app ∧
    (configErrorOutcome app).requeueAfter = 0 ∧
    (configErrorOutcome app).configError = true := by
  refine ⟨?_, rfl, rfl, rfl, rfl, rfl⟩
  have hwf : wellFormedSteps c.steps = false := by
    cases hcase : wellFormedSteps c.steps with
    | false => rfl
    | true =>
        exfalso
        rcases (wellFormedSteps_iff c.steps).mp hcase with ⟨hmono, hlast⟩
        rcases hbad with hbad | hbad
        · exact hbad hmono
        · exact hbad hlast
  have heff : effectiveSteps c = c.steps := by
    simp [effectiveSteps, List.isEmpty_iff, hne]
  simp [canaryRun, happ, heff, hwf]

/-- Claim C3 witness: the single-step sequence `[{weight 50, pause 0}]`
(final weight ≠ 100) is rejected with no step executed. -/
theorem claim_C3_malformed_rejected_witness :
    appBadSteps.spec.upgradeStrategy.canary = some ⟨[⟨50, 0⟩]⟩ ∧
    ((⟨[⟨50, 0⟩]⟩ : CanarySpec).steps ≠ []) ∧
    ((⟨[⟨50, 0⟩]⟩ : CanarySpec).steps.getLast?.map (fun s => s.weight) ≠ some 100) ∧
    canaryRun [.passing] appBadSteps = [configErrorOutcome appBadSteps] :=
  ⟨rfl, by decide, by decide,
   (claim_C3_malformed_rejected appBadSteps ⟨[⟨50, 0⟩]⟩ [.passing] rfl (by decide)
     (Or.inr (by decide))).1⟩

/-- Claim C4: with a step remaining, a canary invocation applies that
step's weight to the traffic split, persists `status.canaryWeight` equal to
that weight, requests re-invocation after that step's `pauseSeconds`, and
changes neither the phase nor `currentVersion`; and on Scenario C (steps
`[{10,60},{50,60},{100,0}]`, all gates passing) the observed `canaryWeight`
sequence is exactly 10, 50, 100, followed by `Promoting` then `Healthy`. -/
theorem claim_C4_step_progression (app : ManagedApplication) (c : CanarySpec)
    (idx : Nat)
    (happ : app.spec.upgradeStrategy.canary = some c)
    (hidx : idx < c.steps.length) :
    (deployCanary app idx).trafficWeightSet = some (c.steps.get ⟨idx, hidx⟩).weight ∧
    (deployCanary app idx).app.status.canaryWeight = (c.steps.get ⟨idx, hidx⟩).weight ∧
    (deployCanary app idx).requeueAfter = (c.steps.get ⟨idx, hidx⟩).pause ∧
    (deployCanary app idx).statusWrite = true ∧
    (deployCanary app idx).app.status.phase = app.status.phase ∧
    (deployCanary app idx).app.status.currentVersion = app.status.currentVersion ∧
    ((canaryRun [.passing, .passing, .passing, .passing] appScenC).map
      (fun o => (o.app.status.phase, o.app.status.canaryWeight))) =
      [("Canary", 10), ("Canary", 50), ("Promoting", 100), ("Healthy", 0)] ∧
    ((canaryRun [.passing, .passing, .passing, .passing] appScenC).map
      (fun o => o.trafficWeightSet)) = [some 10, some 50, some 100, none] ∧
    ((canaryRun [.passing, .passing, .passing, .passing] appScenC).map
      (fun o => o.requeueAfter)) = [60, 60, 0, 0] ∧
    (canaryRun [.passing, .passing, .passing, .passing] appScenC).getLast?.map
      (fun o => o.app.status.currentVersion) = some "v2" := by
  refine ⟨?_, ?_, ?_, ?_, ?_, ?_, by decide, by decide, by decide, by decide⟩
  all_goals
    simp only [deployCanary, happ]
    rw [dif_pos hidx]

/-- Claim C4 witness: the first step of the Scenario-C application. -/
theorem claim_C4_step_progression_witness :
    appScenC.spec.upgradeStrategy.canary = some ⟨[⟨10, 60⟩, ⟨50, 60⟩, ⟨100, 0⟩]⟩ ∧
    (deployCanary appScenC 0).trafficWeightSet = some 10 ∧
    (deployCanary appScenC 0).app.status.canaryWeight = 10 ∧
    (deployCanary appScenC 0).requeueAfter = 60 := by
  have h := claim_C4_step_progression appScenC ⟨[⟨10, 60⟩, ⟨50, 60⟩, ⟨100, 0⟩]⟩ 0
    rfl (by decide)
  exact ⟨rfl, h.1, h.2.1, h.2.2.1⟩

/-- Claim C9: an application with an empty canary step sequence behaves
exactly as if the sequence were the single step `{weight 100, pause 0}`:
for every gate sequence the full observable run coincides with that of the
explicit one-step configuration, and with gates passing the run is one full
traffic cutover to 100 followed by immediate promotion and `Healthy`. -/
theorem claim_C9_empty_canary_equiv (gates : List Gate) (app : ManagedApplication)
    (c : CanarySpec)
    (happ : app.spec.upgradeStrategy.canary = some c)
    (hempty : c.steps = []) :
    canaryRun gates app = canaryRun gates (withCanarySteps app [⟨100, 0⟩]) ∧
    (canaryRun [.passing, .passing] appEmptySteps).map
      (fun o => (o.app.status.phase, o.trafficWeightSet, o.app.status.canaryWeight)) =
      [("Promoting", some 100, 100), ("Healthy", none, 0)] ∧
    canaryRun [.passing, .passing] appEmptySteps =
      canaryRun [.passing, .passing] appOneStep := by
  have hwf : wellFormedSteps [(⟨100, 0⟩ : CanaryStep)] = true := by decide
  refine ⟨?_, by decide, by decide⟩
  have hl : canaryRun gates app = canaryLoop gates (withCanarySteps app [⟨100, 0⟩], 0) := by
    simp [canaryRun, happ, effectiveSteps, hempty, hwf]
  have hr : canaryRun gates (withCanarySteps app [⟨100, 0⟩]) =
      canaryLoop gates (withCanarySteps app [⟨100, 0⟩], 0) := by
    simp only [canaryRun, withCanarySteps]
    simp [effectiveSteps, hwf, withCanarySteps]
  rw [hl, hr]

/-- Claim C9 witness: the Scenario-C application with its steps emptied. -/
theorem claim_C9_empty_canary_equiv_witness :
    appEmptySteps.spec.upgradeStrategy.canary = some ⟨[]⟩ ∧
    canaryRun [.passing] appEmptySteps =
      canaryRun [.passing] (withCanarySteps appEmptySteps [⟨100, 0⟩]) :=
  ⟨rfl, (claim_C9_empty_canary_equiv [.passing] appEmptySteps ⟨[]⟩ rfl rfl).1⟩

/-- Claim C6: `Failed` is terminal.  From `Failed` the machine moves only
when rollback is enabled by configuration, and then only to `RollingBack`;
with rollback disabled (or already done) nothing changes and no rollback
call is made; from `RollingBack` a successful rollback returns the machine
to `Failed` with the rollback recorded as done, and any later invocation
from that state — whatever the configuration — changes nothing. -/
theorem claim_C6_failed_terminal (enabled restoreOk enabled₂ restoreOk₂ : Bool)
    (s : FailedState) :
    (s.app.status.phase = "Failed" → enabled = false →
      failedPhaseStep enabled restoreOk s = (s, none)) ∧
    (s.app.status.phase = "Failed" → s.rollbackDone = true →
      failedPhaseStep enabled restoreOk s = (s, none)) ∧
    (s.app.status.phase = "Failed" →
      failedPhaseStep enabled restoreOk s = (s, none) ∨
      ((failedPhaseStep enabled restoreOk s).1.app.status.phase = "RollingBack" ∧
        (failedPhaseStep enabled restoreOk s).2 = none ∧ enabled = true)) ∧
    (s.app.status.phase = "RollingBack" → restoreOk = true →
      (failedPhaseStep enabled restoreOk s).1.app.status.phase = "Failed" ∧
      (failedPhaseStep enabled restoreOk s).1.rollbackDone = true ∧
      (failedPhaseStep enabled restoreOk s).2 = some (rollbackManager true s.app) ∧
      failedPhaseStep enabled₂ restoreOk₂ (failedPhaseStep enabled restoreOk s).1 =
        ((failedPhaseStep enabled restoreOk s).1, none)) := by
  refine ⟨fun hph hen => ?_, fun hph hdone => ?_, fun hph => ?_, fun hph hok => ?_⟩
  · simp [failedPhaseStep, hph, hen]
  · simp [failedPhaseStep, hph, hdone]
  · cases hen : enabled with
    | false => exact Or.inl (by simp [failedPhaseStep, hph])
    | true =>
        cases hdone : s.rollbackDone with
        | true => exact Or.inl (by simp [failedPhaseStep, hph, hdone])
        | false =>
            refine Or.inr ⟨?_, ?_, rfl⟩ <;>
              simp [failedPhaseStep, hph, hdone, setPhase]
  · have hnotf : s.app.status.phase ≠ "Failed" := by rw [hph]; decide
    have hstep : failedPhaseStep enabled restoreOk s =
        ({ app := setPhase (rollbackManager true s.app).app "Failed", rollbackDone := true },
          some (rollbackManager true s.app)) := by
      simp [failedPhaseStep, hph, hok, beq_eq_false_iff_ne.mpr hnotf, rollbackManager]
    refine ⟨by rw [hstep]; simp [setPhase], by rw [hstep], by rw [hstep], ?_⟩
    rw [hstep]
    simp [failedPhaseStep, setPhase]

/-- Claim C6 witness: a failed application with rollback disabled stays
put; the rolling-back application with a successful restore returns to
`Failed` and stays there. -/
theorem claim_C6_failed_terminal_witness :
    sFailed.app.status.phase = "Failed" ∧
    sRolling.app.status.phase = "RollingBack" ∧
    failedPhaseStep false true sFailed = (sFailed, none) ∧
    (failedPhaseStep true true sRolling).1.app.status.phase = "Failed" ∧
    failedPhaseStep true true (failedPhaseStep true true sRolling).1 =
      ((failedPhaseStep true true sRolling).1, none) := by
  have h1 := claim_C6_failed_terminal false true true true sFailed
  have h2 := claim_C6_failed_terminal true true true true sRolling
  exact ⟨rfl, rfl, h1.1 rfl rfl, (h2.2.2.2 rfl rfl).1, (h2.2.2.2 rfl rfl).2.2.2⟩

/-- Claim C7: the rollback manager never changes `status.currentVersion`
(whether or not the restore succeeds); a completed rollback restores the
workload to the pre-attempt `currentVersion` and resets `canaryWeight` to
0; a migration-task failure drives the phase to `Failed` while leaving
`currentVersion` unchanged; and the in-flight attempt itself (migration
polling, canary weight application) never touches `currentVersion`. -/
theorem claim_C7_rollback_frame (restoreOk : Bool)
    (app app₂ app₃ : ManagedApplication) (c : Cluster) (st : JobStatus) (idx : Nat)
    (hfound : lookupJob c (migrationJobName app₂) app₂.ns = some st)
    (hs : st.succeeded = 0) (hf : 0 < st.failed) :
    (rollbackManager restoreOk app).app.status.currentVersion =
      app.status.currentVersion ∧
    (rollbackManager true app).app.status.canaryWeight = 0 ∧
    (rollbackManager true app).restoredVersion = some app.status.currentVersion ∧
    (runMigration c app₂).app.status.phase = "Failed" ∧
    (runMigration c app₂).app.status.currentVersion = app₂.status.currentVersion ∧
    (runMigration c app₂).app.status.targetVersion = app₂.status.targetVersion ∧
    (deployCanary app₃ idx).app.status.currentVersion = app₃.status.currentVersion := by
  have hmig : runMigration c app₂ =
      { app := setPhase app₂ "Failed", createdJob := none, trafficWeightSet := none,
        requeueAfter := 0, statusWrite := true, configError := false, err := false } := by
    simp only [runMigration, hfound]
    rw [if_neg (by omega), if_pos hf]
  refine ⟨?_, by simp [rollbackManager], by simp [rollbackManager],
    by rw [hmig]; simp [setPhase], by rw [hmig]; simp [setPhase],
    by rw [hmig]; simp [setPhase], ?_⟩
  · cases restoreOk <;> simp [rollbackManager]
  · cases hc : app₃.spec.upgradeStrategy.canary with
    | none => simp [deployCanary, hc, noopOutcome]
    | some cs =>
        by_cases hlt : idx < cs.steps.length
        · simp only [deployCanary, hc]
          rw [dif_pos hlt]
        · simp only [deployCanary, hc]
          rw [dif_neg hlt]
          simp [promoteCanary, setPhase]

/-- Claim C7 witness: the rolling-back application, and the Migrating
application against a cluster whose migration job reports only failure. -/
theorem claim_C7_rollback_frame_witness :
    lookupJob [("my-app-migration-v2", "default", ⟨0, 2⟩)]
      (migrationJobName appMigrating) appMigrating.ns = some ⟨0, 2⟩ ∧
    (rollbackManager true sRolling.app).app.status.currentVersion = "v1" ∧
    (rollbackManager true sRolling.app).app.status.canaryWeight = 0 ∧
    (runMigration [("my-app-migration-v2", "default", ⟨0, 2⟩)]
      appMigrating).app.status.phase = "Failed" ∧
    (runMigration [("my-app-migration-v2", "default", ⟨0, 2⟩)]
      appMigrating).app.status.currentVersion = "v1" := by
  have h := claim_C7_rollback_frame true sRolling.app appMigrating appScenC
    [("my-app-migration-v2", "default", ⟨0, 2⟩)] ⟨0, 2⟩ 0
    (by decide) rfl (by decide)
  exact ⟨by decide, h.1, h.2.1, h.2.2.2.1, h.2.2.2.2.1⟩

end Upgrade
